import Mathlib

/-!
Verification of the status-go core against its specification.

The development shallowly embeds the Go sources:
  * `geth/jail/execcution_policy.go`  — the RPC Execution Policy
    (`ExecuteSendTransaction`, `ExecuteRemoteSendTransaction`,
    `ExecuteLocalSendTransaction`, `ExecuteOtherTransaction`);
  * the node package's `NodeManager` (start/stop/reset lifecycle,
    accessors, channels, signals);
  * the `message.Status` enumeration and its `String` method from the
    e2e test sources.

External collaborators (the geth node, the RPC client transport, the
keystore, RLP encoding, the otto JS engine) are modelled as explicit
parameters or injective placeholder wrappers; every fallible external
call is an `Except`/`Option` input so each code path is reachable.
-/

set_option autoImplicit false

deriving instance DecidableEq for Except

namespace StatusGo

/-! ## JSON values and response objects

otto objects built by the policy are modelled as insertion-ordered
association lists of JSON values; `resp.Set(k, v)` replaces the value in
place when `k` is present and appends otherwise. -/

inductive JsonValue where
  | null
  | bool (b : Bool)
  | num (n : Int)
  | str (s : String)
  | raw (s : String)
  /-- the `map[string]interface\x7b\x7d` error value `{code, message}` built
  by `ExecuteOtherTransaction` for typed RPC errors -/
  | errObj (code : Int) (message : String)
deriving DecidableEq, Repr

abbrev JsonObj := List (String × JsonValue)

def setField : JsonObj → String → JsonValue → JsonObj
  | [], k, v => [(k, v)]
  | (k', v') :: rest, k, v =>
    if k' = k then (k, v) :: rest else (k', v') :: setField rest k v

/-- JSON-RPC request decoded from a cell, with the field extraction
helpers of `common.RPCCall` (declared outside the provided sources)
represented by their results. -/
structure RPCCall where
  ID : JsonValue
  Method : String
  fromAddr : Except String String
  toAddr : Except String String
  gas : Int
  gasPrice : Int
  value : Int
  data : List Nat
deriving DecidableEq, Repr

/-! ## Transactions, signing and hashing (external go-ethereum types)

`types.NewTransaction`, `types.SignTx` with an EIP-155 signer, RLP
encoding and `Hash()` live outside this repository; they are modelled by
injective constructors, and the two string-producing externals
(`gethcommon.ToHex ∘ rlp.EncodeToBytes` and `Hash().String()`) are passed
in as function parameters. -/

structure Tx where
  nonce : Nat
  toA : String
  amount : Int
  gasLimit : Int
  gasPrice : Int
  data : List Nat
deriving DecidableEq, Repr

structure EIP155Signer where
  chainID : Int
deriving DecidableEq, Repr

structure SignedTx where
  tx : Tx
  signerChainID : Int
  privateKey : Nat
deriving DecidableEq, Repr

def newTransaction (nonce : Nat) (toA : String) (amount gasLimit gasPrice : Int)
    (data : List Nat) : Tx :=
  { nonce := nonce, toA := toA, amount := amount, gasLimit := gasLimit,
    gasPrice := gasPrice, data := data }

def signTx (tx : Tx) (s : EIP155Signer) (key : Nat) : SignedTx :=
  { tx := tx, signerChainID := s.chainID, privateKey := key }

/-- The account currently selected by the account manager: its address
and the handle of its private key. -/
structure SelectedExtKey where
  address : String
  privateKey : Nat
deriving DecidableEq, Repr

/-! ## Node configuration -/

structure UpstreamRPCConfig where
  Enabled : Bool
  URL : String
deriving DecidableEq, Repr

structure BootClusterConfig where
  Enabled : Bool
  BootNodes : List String
deriving DecidableEq, Repr

structure NodeConfig where
  NetworkID : Int
  DataDir : String
  Name : String
  UpstreamConfig : UpstreamRPCConfig
  BootClusterConfig : BootClusterConfig
  LogLevel : String
  LogFile : String
deriving DecidableEq, Repr

/-! ## Node manager errors (part_000, `var (...)` error block) -/

inductive NodeErr where
  | NodeExists
  | NoRunningNode
  | InvalidNodeManager
  | InvalidWhisperService
  | InvalidLightEthereumService
  | InvalidAccountManager
  | AccountKeyStoreMissing
  | RPCClient
  | MakeNodeError (msg : String)
  | StopError (msg : String)
  | ChainDataMissing (dir : String)
  | RemoveDirError (dir : String)
deriving DecidableEq, Repr

/-! ## Execution policy (`geth/jail/execcution_policy.go`)

The `common.NodeManager` / `common.AccountManager` interfaces and the RPC
client transport are external to this file's subject; each call the policy
makes on them is an explicit `Except` input, so that every path of the Go
functions is represented.  Calls that go over the wire are additionally
recorded in an effect trace together with their deadline. -/

/-- Errors the policy functions can return to their caller (the cell). -/
inductive JailErr where
  | nodeErr (e : NodeErr)
  | accountErr (msg : String)
  | rpcClientErr (msg : String)
  | parseErr (msg : String)
  | callErr (msg : String)
  | stopRPCCall (msg : String)
deriving DecidableEq, Repr

/-- A `client.CallContext(ctx, …)` performed under a deadline of
`deadlineSeconds` from now (`context.WithDeadline(…, time.Now().Add(1*time.Minute))`
is recorded as 60). -/
inductive RPCEffect where
  | callContext (deadlineSeconds : Nat) (method : String) (params : List String)
deriving DecidableEq, Repr

/-- Modelled from the spec: `newErrorResponse` (defined in the jail package
outside the provided sources) builds the JSON-RPC 2.0 error response —
"all errors become JSON-RPC error objects with a human-readable message" —
carrying the request id and an error value with the code and message. -/
def newErrorResponse (code : Int) (msg : String) (id : JsonValue) : JsonObj :=
  [("jsonrpc", JsonValue.str "2.0"), ("id", id),
   ("error", JsonValue.errObj code msg)]

/-- External-call results consumed by `ExecuteRemoteSendTransaction`, in
the order the Go function performs them. -/
structure RemoteEnv where
  nodeConfig : Except NodeErr NodeConfig
  selectedAccount : Except String SelectedExtKey
  rpcClient : Except String Unit
  nonceResult : Except String Nat
  sendRawResult : Except String String
deriving DecidableEq, Repr

/-- `ExecutionPolicy.ExecuteRemoteSendTransaction`.  `encodeHex` stands for
the external `gethcommon.ToHex(rlp.EncodeToBytes(txs))` and `hashStr` for
`txs.Hash().String()`; both are parameters because they live in
go-ethereum, outside this repository. -/
def ExecuteRemoteSendTransaction (env : RemoteEnv) (req : RPCCall)
    (encodeHex hashStr : SignedTx → String) :
    Except JailErr JsonObj × List RPCEffect :=
  match env.nodeConfig with
  | .error e => (.error (.nodeErr e), [])
  | .ok config =>
  match env.selectedAccount with
  | .error e => (.error (.accountErr e), [])
  | .ok selectedAcct =>
  match env.rpcClient with
  | .error e => (.error (.rpcClientErr e), [])
  | .ok _ =>
  match req.fromAddr with
  | .error e => (.error (.parseErr e), [])
  | .ok fromAddr =>
  match req.toAddr with
  | .error e => (.error (.parseErr e), [])
  | .ok toAddr =>
  let nonceCall := RPCEffect.callContext 60 "eth_getTransactionCount" [fromAddr, "latest"]
  match env.nonceResult with
  | .error e => (.error (.callErr e), [nonceCall])
  | .ok nonce =>
  let gas := req.gas
  let dataVal := req.data
  let priceVal := req.value
  let gasPrice := req.gasPrice
  let chainID := config.NetworkID
  let tx := newTransaction nonce toAddr priceVal gas gasPrice dataVal
  let txs := signTx tx { chainID := chainID } selectedAcct.privateKey
  let sendCall := RPCEffect.callContext 60 "eth_sendRawTransaction" [encodeHex txs]
  match env.sendRawResult with
  | .error e => (.error (.callErr e), [nonceCall, sendCall])
  | .ok result =>
    let resp : JsonObj := [("jsonrpc", JsonValue.str "2.0")]
    let resp := setField resp "id" req.ID
    let resp := setField resp "result" (JsonValue.raw result)
    let resp := setField resp "hash" (JsonValue.str (hashStr txs))
    (.ok resp, [nonceCall, sendCall])

/-- `ExecutionPolicy.ExecuteLocalSendTransaction`.  `processRPCCall` (the
transaction-queue path, outside this file) returns a hash (here its hex
string) and possibly an error; the Go code sets `result` unconditionally
and then replaces the whole response by an error object when the error is
non-nil. -/
def ExecuteLocalSendTransaction (req : RPCCall) (txHashHex : String)
    (procErr : Option String) : Except JailErr JsonObj :=
  let resp : JsonObj := [("jsonrpc", JsonValue.str "2.0")]
  let resp := setField resp "id" req.ID
  let resp := setField resp "result" (JsonValue.str txHashHex)
  match procErr with
  | some e => .ok (newErrorResponse (-32603) e req.ID)
  | none => .ok resp

/-- Outcome of the pass-through `client.Call(&result, req.Method, req.Params…)`:
success (with `nil` decoded as an empty raw message, modelled `none`), a
typed `rpc.Error` exposing a numeric code, or any other error. -/
inductive CallOutcome where
  | success (result : Option String)
  | rpcError (code : Int) (message : String)
  | otherError (message : String)
deriving DecidableEq, Repr

/-- External-call results consumed by `ExecuteOtherTransaction`. -/
structure OtherEnv where
  rpcClient : Except String Unit
  preProcess : Except String String
  callOutcome : CallOutcome
deriving DecidableEq, Repr

/-- `ExecutionPolicy.ExecuteOtherTransaction`.  `jsonParse` stands for the
cell's `JSON.parse`. -/
def ExecuteOtherTransaction (env : OtherEnv) (req : RPCCall)
    (jsonParse : String → Except String JsonValue) : Except JailErr JsonObj :=
  match env.rpcClient with
  | .error e => .error (.stopRPCCall e)
  | .ok _ =>
    let resp : JsonObj := [("jsonrpc", JsonValue.str "2.0")]
    let resp := setField resp "id" req.ID
    match env.preProcess with
    | .error e => .error (.stopRPCCall e)
    | .ok _messageID =>
      match env.callOutcome with
      | .success none => .ok (setField resp "result" JsonValue.null)
      | .success (some raw) =>
        match jsonParse raw with
        | .error e => .ok (newErrorResponse (-32603) e req.ID)
        | .ok v => .ok (setField resp "result" v)
      | .rpcError code msg => .ok (setField resp "error" (JsonValue.errObj code msg))
      | .otherError msg => .ok (newErrorResponse (-32603) msg req.ID)

/-- `ExecutionPolicy.ExecuteSendTransaction`: fetch the node configuration
and dispatch on `config.UpstreamConfig.Enabled` to the remote or the local
send path. -/
def ExecuteSendTransaction (nodeConfigRes : Except NodeErr NodeConfig)
    (remoteEnv : RemoteEnv) (req : RPCCall)
    (encodeHex hashStr : SignedTx → String)
    (localTxHashHex : String) (localProcErr : Option String) :
    Except JailErr JsonObj × List RPCEffect :=
  match nodeConfigRes with
  | .error e => (.error (.nodeErr e), [])
  | .ok config =>
    if config.UpstreamConfig.Enabled then
      ExecuteRemoteSendTransaction remoteEnv req encodeHex hashStr
    else
      (ExecuteLocalSendTransaction req localTxHashHex localProcErr, [])

/-! ## JSON serialization of responses

Mirrors the JSON-RPC 2.0 wire form used by the regression test
(`{"jsonrpc":"2.0","id":7,"result":null}`): fields in insertion order, no
spaces. -/

def serializeJsonValue : JsonValue → String
  | .null => "null"
  | .bool true => "true"
  | .bool false => "false"
  | .num n => toString n
  | .str s => "\"" ++ s ++ "\""
  | .raw s => s
  | .errObj code msg =>
      "\x7b\"code\":" ++ toString code ++ ",\"message\":\"" ++ msg ++ "\"\x7d"

def serializeFields : JsonObj → String
  | [] => ""
  | [(k, v)] => "\"" ++ k ++ "\":" ++ serializeJsonValue v
  | (k, v) :: rest =>
      "\"" ++ k ++ "\":" ++ serializeJsonValue v ++ "," ++ serializeFields rest

def serializeJsonObj (o : JsonObj) : String :=
  "\x7b" ++ serializeFields o ++ "\x7d"

/-! ## `message.Status` and its `String` method (e2e sources) -/

namespace Message

def PendingStatus : Int := 0
def QueuedStatus : Int := 1
def CachedStatus : Int := 2
def SentStatus : Int := 3
def ExpiredStatus : Int := 4
def ResendStatus : Int := 5
def FutureStatus : Int := 6
def LowPowStatus : Int := 7
def InvalidAESStatus : Int := 8
def OversizedMessageStatus : Int := 9
def OversizedVersionStatus : Int := 10
def RejectedStatus : Int := 11
def DeliveredStatus : Int := 12

/-- `message.Status.String`: the `switch` over the declared constants, in
source order; anything not matched (including `CachedStatus`) falls
through to `"unknown"`. -/
def statusString (s : Int) : String :=
  if s = PendingStatus then "Pending"
  else if s = QueuedStatus then "Queued"
  else if s = SentStatus then "Sent"
  else if s = RejectedStatus then "Rejected"
  else if s = DeliveredStatus then "Delivered"
  else if s = ExpiredStatus then "ExpiredTTL"
  else if s = ResendStatus then "Resend"
  else if s = FutureStatus then "FutureDelivery"
  else if s = LowPowStatus then "LowPOWValue"
  else if s = InvalidAESStatus then "Invalid AES-GCM-Nonce"
  else if s = OversizedMessageStatus then "OversizedMessage"
  else if s = OversizedVersionStatus then "HigherWhisperVersion"
  else "unknown"

/-- The declared status constants other than `CachedStatus`. -/
def declaredNonCached : List Int :=
  [PendingStatus, QueuedStatus, SentStatus, ExpiredStatus, ResendStatus,
   FutureStatus, LowPowStatus, InvalidAESStatus, OversizedMessageStatus,
   OversizedVersionStatus, RejectedStatus, DeliveredStatus]

end Message

/-! ## Node lifecycle manager (part_000, package `node`)

`chan struct\x7b\x7d` values used purely for close-notification are modelled
by a heap of channel identities with a closed-set, so that a channel
handed to a caller keeps its identity even after the manager's field is
reassigned.  Blocking reads are modelled by `Option` (`none` = the caller
blocks).  The goroutine spawned by `startNode` is run to the point where
it either returns or reaches `node.Wait()`; external calls it makes are
inputs. -/

structure ChanHeap where
  next : Nat
  closedIds : List Nat
deriving DecidableEq, Repr

def ChanHeap.alloc (h : ChanHeap) : ChanHeap × Nat :=
  ({ h with next := h.next + 1 }, h.next)

def ChanHeap.close (h : ChanHeap) (c : Nat) : ChanHeap :=
  { h with closedIds := c :: h.closedIds }

def ChanHeap.isClosed (h : ChanHeap) (c : Nat) : Bool :=
  h.closedIds.contains c

structure KeyStore where
  id : Nat
deriving DecidableEq, Repr

/-- A backend returned by `accountManager.Backends(keystore.KeyStoreType)`:
either an actual `*keystore.KeyStore` or something that fails the type
assertion. -/
inductive Backend where
  | keyStore (ks : KeyStore)
  | other
deriving DecidableEq, Repr

structure AccountMgr where
  keyStoreBackends : List Backend
deriving DecidableEq, Repr

/-- The underlying geth node handle; `accountManager` is what its
`AccountManager()` returns (`none` = nil). -/
structure NodeHandle where
  id : Nat
  accountManager : Option AccountMgr
deriving DecidableEq, Repr

structure NodeManagerState where
  config : Option NodeConfig
  node : Option NodeHandle
  nodeStarted : Option Nat
  nodeStopped : Option Nat
  whisperService : Option Nat
  lesService : Option Nat
  rpcClient : Option Nat
  chans : ChanHeap
deriving DecidableEq, Repr

/-- A freshly constructed `NodeManager` (`NewNodeManager`): every field nil. -/
def newNodeManager : NodeManagerState :=
  { config := none, node := none, nodeStarted := none, nodeStopped := none,
    whisperService := none, lesService := none, rpcClient := none,
    chans := { next := 0, closedIds := [] } }

def getNode (m : NodeManagerState) : Option NodeHandle := m.node

def nodeStartedIsNil (m : NodeManagerState) : Bool := m.nodeStarted.isNone

def setNodeStarted (m : NodeManagerState) (c : Option Nat) : NodeManagerState :=
  { m with nodeStarted := c }

def closeNodeStarted (m : NodeManagerState) : NodeManagerState :=
  match m.nodeStarted with
  | some c => { m with chans := m.chans.close c }
  | none => m

/-- Signals sent to the signal bus (`signal.Send`). -/
inductive SignalEvent where
  | NodeCrashed (error : String)
  | NodeStarted
  | NodeStopped
  | ChainDataRemoved
deriving DecidableEq, Repr

/-- External calls the lifecycle code performs, in program order. -/
inductive Effect where
  | makeNode (cfg : NodeConfig)
  | ethNodeStart
  | newRPCClient
  | emit (s : SignalEvent)
  | nodeStop
  | statDir (dir : String)
  | removeDir (dir : String)
deriving DecidableEq, Repr

/-- `ErrRPCClient.Error()` (part_000 line 31). -/
def errRPCClientText : String := "failed to init RPC client"

/-- Modelled from the spec: `ErrNodeStartFailure` is declared outside the
provided sources; the crash reason formed by
`fmt.Errorf("%v: %v", ErrNodeStartFailure, err)` is its text, a
colon-space, and the underlying error. -/
def errNodeStartFailureText : String := "node startup failure"

def nodeStartCrashMsg (err : String) : String :=
  errNodeStartFailureText ++ ": " ++ err

/-- Outcomes of the external calls made by the goroutine spawned in
`startNode`: `ethNode.Start()` and `rpc.NewClient(...)`. -/
structure StartEnv where
  startOk : Bool
  startErrMsg : String
  rpcClientRes : Except String Nat
deriving DecidableEq, Repr

/-- `NodeManager.startNode`, synchronous part: the `NodeExists` check,
`MakeNode(config)`, allocation of the started channel.  Returns the new
state, the channel id handed back to the caller and the made node. -/
def startNode (m : NodeManagerState) (config : NodeConfig)
    (makeNodeRes : Except String NodeHandle) :
    Except NodeErr (NodeManagerState × Nat × NodeHandle) × List Effect :=
  if (getNode m).isSome || !(nodeStartedIsNil m) then (.error .NodeExists, [])
  else
    match makeNodeRes with
    | .error e => (.error (.MakeNodeError e), [.makeNode config])
    | .ok ethNode =>
      let (chans, c) := m.chans.alloc
      (.ok (setNodeStarted { m with chans := chans } (some c), c, ethNode),
       [.makeNode config])

/-- The goroutine spawned by `startNode`, run up to its `return` (failure
paths) or to the `node.Wait()` that follows the started-event emission
(success path).  The concurrently spawned `PopulateStaticPeers` goroutine
touches none of the modelled fields and is omitted. -/
def startNodeGoroutine (m : NodeManagerState) (config : NodeConfig)
    (ethNode : NodeHandle) (env : StartEnv) : NodeManagerState × List Effect :=
  if env.startOk = false then
    let m1 := closeNodeStarted m
    let m2 := setNodeStarted m1 none
    (m2, [.ethNodeStart, .emit (.NodeCrashed (nodeStartCrashMsg env.startErrMsg))])
  else
    let m1 := { m with node := some ethNode }
    let (chans, c2) := m1.chans.alloc
    let m2 := { m1 with nodeStopped := some c2, chans := chans }
    let m3 := { m2 with config := some config }
    match env.rpcClientRes with
    | .error _ =>
        (m3, [.ethNodeStart, .newRPCClient, .emit (.NodeCrashed errRPCClientText)])
    | .ok client =>
      let m4 := { m3 with rpcClient := some client }
      let m5 := closeNodeStarted m4
      (m5, [.ethNodeStart, .newRPCClient, .emit .NodeStarted])

/-- `NodeManager.isNodeAvailable`. -/
def isNodeAvailable (m : NodeManagerState) : Except NodeErr Unit :=
  if m.nodeStarted.isNone || m.node.isNone then .error .NoRunningNode else .ok ()

/-- `NodeManager.readNodeStarted` (`<-m.nodeStarted`): returns once the
channel is closed, otherwise the caller blocks (`none`); a receive on a
nil channel also blocks forever. -/
def readNodeStarted (m : NodeManagerState) : Option Unit :=
  match m.nodeStarted with
  | some c => if m.chans.isClosed c then some () else none
  | none => none

/-- `NodeManager.IsNodeRunning` (`none` = the call blocks). -/
def IsNodeRunning (m : NodeManagerState) : Option Bool :=
  match isNodeAvailable m with
  | .error _ => some false
  | .ok _ => (readNodeStarted m).map (fun _ => true)

/-- `NodeManager.NodeConfig` (`none` = the call blocks). -/
def NodeConfigAcc (m : NodeManagerState) : Option (Except NodeErr (Option NodeConfig)) :=
  match isNodeAvailable m with
  | .error e => some (.error e)
  | .ok _ =>
    match readNodeStarted m with
    | none => none
    | some _ => some (.ok m.config)

/-- `NodeManager.Node` (`none` = the call blocks). -/
def NodeAcc (m : NodeManagerState) : Option (Except NodeErr (Option NodeHandle)) :=
  match isNodeAvailable m with
  | .error e => some (.error e)
  | .ok _ =>
    match readNodeStarted m with
    | none => none
    | some _ => some (.ok (getNode m))

/-- `NodeManager.AccountKeyStore` (`none` = the call blocks). -/
def AccountKeyStoreAcc (m : NodeManagerState) : Option (Except NodeErr KeyStore) :=
  match isNodeAvailable m with
  | .error e => some (.error e)
  | .ok _ =>
    match readNodeStarted m with
    | none => none
    | some _ =>
      match m.node with
      | none => some (.error .InvalidAccountManager)
      | some n =>
        match n.accountManager with
        | none => some (.error .InvalidAccountManager)
        | some am =>
          match am.keyStoreBackends with
          | [] => some (.error .AccountKeyStoreMissing)
          | b :: _ =>
            match b with
            | .keyStore ks => some (.ok ks)
            | .other => some (.error .AccountKeyStoreMissing)

/-- `NodeManager.RPCClient` (part_000 lines 452–455): returns
`m.getRPCClient()` directly — no availability check, no blocking read of
the started channel, and no error return. -/
def RPCClientAcc (m : NodeManagerState) : Option Nat := m.rpcClient

/-- `NodeManager.reset`: clears config, LES, Whisper, the RPC client, the
started channel and the node handle (`nodeStopped` is left as is). -/
def reset (m : NodeManagerState) : NodeManagerState :=
  { m with config := none, lesService := none, whisperService := none,
           rpcClient := none, nodeStarted := none, node := none }

/-- `NodeManager.stopNode`, run until the channel handed to the caller is
closed: `node.Stop()`, then the goroutine waits for the start goroutine
to observe node termination, resets the fields, closes the caller's
channel and emits `node.stopped`. -/
def stopNode (m : NodeManagerState) (stopRes : Except String Unit) :
    Except NodeErr (NodeManagerState × Nat) × List Effect :=
  match stopRes with
  | .error e => (.error (.StopError e), [.nodeStop])
  | .ok _ =>
    let (chans, c) := m.chans.alloc
    let m1 := reset { m with chans := chans }
    let m2 := { m1 with chans := m1.chans.close c }
    (.ok (m2, c), [.nodeStop, .emit .NodeStopped])

/-- `NodeManager.StopNode` (`none` = the call blocks on the started
channel). -/
def StopNode (m : NodeManagerState) (stopRes : Except String Unit) :
    Option (Except NodeErr (NodeManagerState × Nat) × List Effect) :=
  match isNodeAvailable m with
  | .error e => some (.error e, [])
  | .ok _ =>
    if m.nodeStopped.isNone then some (.error .NoRunningNode, [])
    else
      match readNodeStarted m with
      | none => none
      | some _ => some (stopNode m stopRes)

/-- `filepath.Join(prevConfig.DataDir, prevConfig.Name, "lightchaindata")`. -/
def chainDataDirOf (cfg : NodeConfig) : String :=
  cfg.DataDir ++ "/" ++ cfg.Name ++ "/lightchaindata"

/-- `NodeManager.resetChainData`: capture the previous config, stop the
node and wait for the stop to complete, `os.Stat` the chain-data
directory (reporting the not-exist error), `os.RemoveAll` it, emit
`node.chaindata.removed`, and start a node with the previous config. -/
def resetChainData (m : NodeManagerState) (stopRes : Except String Unit)
    (dirExists removeOk : Bool) (makeNodeRes : Except String NodeHandle) :
    Except NodeErr (NodeManagerState × Nat) × List Effect :=
  let prevConfig := m.config
  match stopNode m stopRes with
  | (.error e, tr) => (.error e, tr)
  | (.ok (m1, _stopChan), tr) =>
    match prevConfig with
    | none => (.error .InvalidNodeManager, tr)
    | some cfg =>
      let dir := chainDataDirOf cfg
      if !dirExists then (.error (.ChainDataMissing dir), tr ++ [.statDir dir])
      else if !removeOk then
        (.error (.RemoveDirError dir), tr ++ [.statDir dir, .removeDir dir])
      else
        let tr2 := tr ++ [.statDir dir, .removeDir dir, .emit .ChainDataRemoved]
        match startNode m1 cfg makeNodeRes with
        | (.error e, tr3) => (.error e, tr2 ++ tr3)
        | (.ok (m2, c, _eth), tr3) => (.ok (m2, c), tr2 ++ tr3)

/-- `NodeManager.ResetChainData` (`none` = the call blocks on the started
channel). -/
def ResetChainData (m : NodeManagerState) (stopRes : Except String Unit)
    (dirExists removeOk : Bool) (makeNodeRes : Except String NodeHandle) :
    Option (Except NodeErr (NodeManagerState × Nat) × List Effect) :=
  match isNodeAvailable m with
  | .error e => some (.error e, [])
  | .ok _ =>
    match readNodeStarted m with
    | none => none
    | some _ => some (resetChainData m stopRes dirExists removeOk makeNodeRes)

/-- The signals inside an effect trace, in order. -/
def signalsOf (tr : List Effect) : List SignalEvent :=
  tr.filterMap fun e =>
    match e with
    | .emit s => some s
    | _ => none

/-! ## Concrete sample inputs and lifecycle scenarios -/

def sampleConfig : NodeConfig :=
  { NetworkID := 3, DataDir := "/data", Name := "StatusIM",
    UpstreamConfig := { Enabled := false, URL := "" },
    BootClusterConfig := { Enabled := false, BootNodes := [] },
    LogLevel := "INFO", LogFile := "" }

def remoteCfg : NodeConfig :=
  { sampleConfig with UpstreamConfig := { Enabled := true, URL := "http://upstream" } }

def sampleNode : NodeHandle :=
  { id := 1, accountManager := some { keyStoreBackends := [.keyStore { id := 5 }] } }

/-- `ethNode.Start()` and `rpc.NewClient` both succeed. -/
def allOkEnv : StartEnv :=
  { startOk := true, startErrMsg := "", rpcClientRes := .ok 7 }

/-- `ethNode.Start()` fails. -/
def startFailEnv : StartEnv :=
  { startOk := false, startErrMsg := "boom", rpcClientRes := .ok 7 }

/-- `ethNode.Start()` succeeds but `rpc.NewClient` fails. -/
def rpcFailEnv : StartEnv :=
  { startOk := true, startErrMsg := "", rpcClientRes := .error "connection refused" }

/-- Start a node on a fresh manager and run the initialization goroutine
under the given external outcomes.  The channel handed back to the caller
by `startNode` is channel 0. -/
def runStartScenario (env : StartEnv) : NodeManagerState × List Effect :=
  match (startNode newNodeManager sampleConfig (.ok sampleNode)).1 with
  | .ok (m1, _c, eth) => startNodeGoroutine m1 sampleConfig eth env
  | .error _ => (newNodeManager, [])

/-- The manager after a fully successful start. -/
def runningState : NodeManagerState := (runStartScenario allOkEnv).1

/-- The manager right after `startNode` has returned to its caller and
before the spawned goroutine has executed `setNode` — i.e. while
`ethNode.Start()` is still running: the started channel (id 0) is
allocated and open, the node handle is still nil. -/
def midStartState : NodeManagerState :=
  match (startNode newNodeManager sampleConfig (.ok sampleNode)).1 with
  | .ok (m1, _c, _eth) => m1
  | .error _ => newNodeManager

/-- The manager after a successful start followed by a completed stop. -/
def stoppedState : NodeManagerState :=
  match (stopNode runningState (.ok ())).1 with
  | .ok (m, _) => m
  | .error _ => newNodeManager

def sampleReq : RPCCall :=
  { ID := .num 1, Method := "eth_sendTransaction",
    fromAddr := .ok "0xf00d", toAddr := .ok "0xbeef",
    gas := 90000, gasPrice := 20, value := 5, data := [1, 2, 3] }

/-- A non-send request as in the receipt regression test (id 7). -/
def receiptReq : RPCCall :=
  { ID := .num 7, Method := "eth_getTransactionReceipt",
    fromAddr := .error "no from field", toAddr := .error "no to field",
    gas := 0, gasPrice := 0, value := 0, data := [] }

def sampleAccount : SelectedExtKey := { address := "0xf00d", privateKey := 42 }

def sampleRemoteEnv : RemoteEnv :=
  { nodeConfig := .ok remoteCfg, selectedAccount := .ok sampleAccount,
    rpcClient := .ok (), nonceResult := .ok 11,
    sendRawResult := .ok "\"0xabc\"" }

/-- Stand-in for `gethcommon.ToHex(rlp.EncodeToBytes(·))`. -/
def sampleHex : SignedTx → String := fun _ => "0xdeadbeef"

/-- Stand-in for `Hash().String()`. -/
def sampleHash : SignedTx → String := fun _ => "0x1234"

/-- Stand-in for the cell's `JSON.parse`. -/
def sampleParse : String → Except String JsonValue := fun s => .ok (.raw s)

def sampleOtherEnv : OtherEnv :=
  { rpcClient := .ok (), preProcess := .ok "msg-1", callOutcome := .success none }

def exceptIsOk {ε α : Type} : Except ε α → Bool
  | .ok _ => true
  | .error _ => false

/-! # Theorems -/

set_option maxHeartbeats 2000000 in
/-- C10: the message-status `String` function is total (it is a Lean
function on all of `Int`); it returns `"unknown"` both for every value
outside the declared constants (which occupy 0–12) and for the declared
constant `CachedStatus`, while the twelve other declared constants map to
pairwise distinct names, none of which is `"unknown"`. -/
theorem message_status_string_total :
    Message.statusString Message.CachedStatus = "unknown"
    ∧ (∀ s : Int, (s < 0 ∨ 12 < s) → Message.statusString s = "unknown")
    ∧ (Message.declaredNonCached.map Message.statusString).Nodup
    ∧ (∀ s ∈ Message.declaredNonCached, Message.statusString s ≠ "unknown") := by
  refine ⟨by decide, ?_, by decide, by decide⟩
  intro s hs
  delta Message.statusString Message.PendingStatus Message.QueuedStatus
    Message.SentStatus Message.RejectedStatus Message.DeliveredStatus
    Message.ExpiredStatus Message.ResendStatus Message.FutureStatus
    Message.LowPowStatus Message.InvalidAESStatus Message.OversizedMessageStatus
    Message.OversizedVersionStatus
  split_ifs <;> first | rfl | omega

set_option maxHeartbeats 2000000 in
/-- C10 witness: the theorem applied at the concrete out-of-range value 13
and at the declared constant `SentStatus` (= 3). -/
theorem message_status_string_total_witness :
    Message.statusString 13 = "unknown" ∧ Message.statusString 3 ≠ "unknown" :=
  ⟨message_status_string_total.2.1 13 (Or.inr (by decide)),
   message_status_string_total.2.2.2 3 (by decide)⟩

/-- C8: on the Local Send path, a successful queued transaction yields a
response with the transaction hash as `result` and the request id, and a
rejected / timed-out transaction yields a JSON-RPC error object with code
-32603 — in both cases the function returns the response to its caller
without failing (`.ok`). -/
theorem local_send_transaction_response (req : RPCCall) (txHashHex : String) :
    (ExecuteLocalSendTransaction req txHashHex none =
       .ok [("jsonrpc", JsonValue.str "2.0"), ("id", req.ID),
            ("result", JsonValue.str txHashHex)])
    ∧ (∀ e : String, ExecuteLocalSendTransaction req txHashHex (some e) =
       .ok [("jsonrpc", JsonValue.str "2.0"), ("id", req.ID),
            ("error", JsonValue.errObj (-32603) e)]) := by
  constructor
  · simp [ExecuteLocalSendTransaction, setField]
  · intro e
    simp [ExecuteLocalSendTransaction, newErrorResponse, setField]

/-- C5: when the pass-through call of a non-`eth_sendTransaction` RPC
fails, a typed RPC error (numeric code) becomes `error: {code, message}`
on the response and any other error becomes an error object with code
-32603 and the error's message; in both cases `ExecuteOtherTransaction`
returns the response (`.ok`) rather than failing. -/
theorem other_transaction_error_classification (env : OtherEnv) (req : RPCCall)
    (jsonParse : String → Except String JsonValue) (mid : String)
    (hclient : env.rpcClient = .ok ()) (hpre : env.preProcess = .ok mid) :
    (∀ code : Int, ∀ msg : String, env.callOutcome = .rpcError code msg →
       ExecuteOtherTransaction env req jsonParse =
         .ok [("jsonrpc", JsonValue.str "2.0"), ("id", req.ID),
              ("error", JsonValue.errObj code msg)])
    ∧ (∀ msg : String, env.callOutcome = .otherError msg →
       ExecuteOtherTransaction env req jsonParse =
         .ok [("jsonrpc", JsonValue.str "2.0"), ("id", req.ID),
              ("error", JsonValue.errObj (-32603) msg)]) := by
  constructor
  · intro code msg hcall
    simp [ExecuteOtherTransaction, hclient, hpre, hcall, setField]
  · intro msg hcall
    simp [ExecuteOtherTransaction, hclient, hpre, hcall, newErrorResponse, setField]

/-- C5 witness: the theorem applied to a concrete typed RPC error and a
concrete untyped error. -/
theorem other_transaction_error_classification_witness :
    (ExecuteOtherTransaction
        { sampleOtherEnv with callOutcome := .rpcError (-32000) "gas too low" }
        receiptReq sampleParse =
      .ok [("jsonrpc", JsonValue.str "2.0"), ("id", JsonValue.num 7),
           ("error", JsonValue.errObj (-32000) "gas too low")])
    ∧ (ExecuteOtherTransaction
        { sampleOtherEnv with callOutcome := .otherError "boom" }
        receiptReq sampleParse =
      .ok [("jsonrpc", JsonValue.str "2.0"), ("id", JsonValue.num 7),
           ("error", JsonValue.errObj (-32603) "boom")]) :=
  ⟨(other_transaction_error_classification _ receiptReq sampleParse "msg-1" rfl rfl).1
      (-32000) "gas too low" rfl,
   (other_transaction_error_classification _ receiptReq sampleParse "msg-1" rfl rfl).2
      "boom" rfl⟩

/-- C6: a non-`eth_sendTransaction` RPC that succeeds with a null (empty
raw JSON) result produces a response that carries `result: null`
explicitly (the field is present, set to null, not omitted); in
particular, serialized with the regression test's request id 7 the
response is exactly the literal `{"jsonrpc":"2.0","id":7,"result":null}`. -/
theorem null_result_is_explicit (env : OtherEnv) (req : RPCCall)
    (jsonParse : String → Except String JsonValue) (mid : String) (n : Int)
    (hclient : env.rpcClient = .ok ()) (hpre : env.preProcess = .ok mid)
    (hcall : env.callOutcome = .success none) (hid : req.ID = .num n) :
    ExecuteOtherTransaction env req jsonParse =
      .ok [("jsonrpc", JsonValue.str "2.0"), ("id", JsonValue.num n),
           ("result", JsonValue.null)]
    ∧ serializeJsonObj [("jsonrpc", JsonValue.str "2.0"), ("id", JsonValue.num 7),
           ("result", JsonValue.null)] =
      "\x7b\"jsonrpc\":\"2.0\",\"id\":7,\"result\":null\x7d" := by
  constructor
  · simp [ExecuteOtherTransaction, hclient, hpre, hcall, hid, setField]
  · rfl

/-- C6 witness: the regression-test request (id 7) evaluates to the
literal `{"jsonrpc":"2.0","id":7,"result":null}`. -/
theorem null_result_is_explicit_witness :
    ExecuteOtherTransaction sampleOtherEnv receiptReq sampleParse =
      .ok [("jsonrpc", JsonValue.str "2.0"), ("id", JsonValue.num 7),
           ("result", JsonValue.null)]
    ∧ serializeJsonObj [("jsonrpc", JsonValue.str "2.0"), ("id", JsonValue.num 7),
           ("result", JsonValue.null)] =
      "\x7b\"jsonrpc\":\"2.0\",\"id\":7,\"result\":null\x7d" :=
  null_result_is_explicit sampleOtherEnv receiptReq sampleParse "msg-1" 7
    rfl rfl rfl rfl

/-- C3: `ExecuteSendTransaction` dispatches to the Remote Send path
exactly when the configuration has `UpstreamConfig.Enabled`, and to the
Local Send path otherwise; when the node configuration is unavailable the
call returns that error and neither path runs (no RPC effects, no
response). -/
theorem send_transaction_dispatch (cfgRes : Except NodeErr NodeConfig)
    (env : RemoteEnv) (req : RPCCall) (encodeHex hashStr : SignedTx → String)
    (lh : String) (le : Option String) :
    (∀ cfg : NodeConfig, cfgRes = .ok cfg → cfg.UpstreamConfig.Enabled = true →
       ExecuteSendTransaction cfgRes env req encodeHex hashStr lh le =
         ExecuteRemoteSendTransaction env req encodeHex hashStr)
    ∧ (∀ cfg : NodeConfig, cfgRes = .ok cfg → cfg.UpstreamConfig.Enabled = false →
       ExecuteSendTransaction cfgRes env req encodeHex hashStr lh le =
         (ExecuteLocalSendTransaction req lh le, []))
    ∧ (∀ e : NodeErr, cfgRes = .error e →
       ExecuteSendTransaction cfgRes env req encodeHex hashStr lh le =
         (.error (.nodeErr e), [])) := by
  refine ⟨?_, ?_, ?_⟩
  · intro cfg hc he
    simp [ExecuteSendTransaction, hc, he]
  · intro cfg hc he
    simp [ExecuteSendTransaction, hc, he]
  · intro e hc
    simp [ExecuteSendTransaction, hc]

/-- C3 witness: the theorem applied at an upstream-enabled configuration,
an upstream-disabled configuration, and an unavailable configuration. -/
theorem send_transaction_dispatch_witness :
    (ExecuteSendTransaction (.ok remoteCfg) sampleRemoteEnv sampleReq
        sampleHex sampleHash "0xh" none =
       ExecuteRemoteSendTransaction sampleRemoteEnv sampleReq sampleHex sampleHash)
    ∧ (ExecuteSendTransaction (.ok sampleConfig) sampleRemoteEnv sampleReq
        sampleHex sampleHash "0xh" none =
       (ExecuteLocalSendTransaction sampleReq "0xh" none, []))
    ∧ (ExecuteSendTransaction (.error .NoRunningNode) sampleRemoteEnv sampleReq
        sampleHex sampleHash "0xh" none =
       (.error (.nodeErr .NoRunningNode), [])) :=
  ⟨(send_transaction_dispatch (.ok remoteCfg) sampleRemoteEnv sampleReq
      sampleHex sampleHash "0xh" none).1 remoteCfg rfl rfl,
   (send_transaction_dispatch (.ok sampleConfig) sampleRemoteEnv sampleReq
      sampleHex sampleHash "0xh" none).2.1 sampleConfig rfl rfl,
   (send_transaction_dispatch (.error .NoRunningNode) sampleRemoteEnv sampleReq
      sampleHex sampleHash "0xh" none).2.2 .NoRunningNode rfl⟩

/-- C4: on the Remote Send path with an available configuration, a
selected account and a reachable client, the code performs, in this
order: the nonce fetch `eth_getTransactionCount(from, "latest")` under a
60-second deadline, then `eth_sendRawTransaction` of the RLP-encoded
transaction — built from the request's gas, gasPrice, value and data and
signed with the selected account's private key under an EIP-155 signer
whose chain id is the configured `NetworkID` — under a 60-second
deadline; and it returns a response carrying the remote result under
`result`, the locally computed transaction hash under `hash`, and the
request id under `id`. -/
theorem remote_send_transaction_spec (env : RemoteEnv) (req : RPCCall)
    (encodeHex hashStr : SignedTx → String)
    (cfg : NodeConfig) (acct : SelectedExtKey) (fromA toA : String)
    (nonce : Nat) (rawRes : String)
    (hc : env.nodeConfig = .ok cfg) (ha : env.selectedAccount = .ok acct)
    (hcl : env.rpcClient = .ok ()) (hf : req.fromAddr = .ok fromA)
    (ht : req.toAddr = .ok toA) (hn : env.nonceResult = .ok nonce)
    (hs : env.sendRawResult = .ok rawRes) :
    ExecuteRemoteSendTransaction env req encodeHex hashStr =
      (.ok [("jsonrpc", JsonValue.str "2.0"), ("id", req.ID),
            ("result", JsonValue.raw rawRes),
            ("hash", JsonValue.str (hashStr (signTx
              (newTransaction nonce toA req.value req.gas req.gasPrice req.data)
              { chainID := cfg.NetworkID } acct.privateKey)))],
       [RPCEffect.callContext 60 "eth_getTransactionCount" [fromA, "latest"],
        RPCEffect.callContext 60 "eth_sendRawTransaction"
          [encodeHex (signTx
            (newTransaction nonce toA req.value req.gas req.gasPrice req.data)
            { chainID := cfg.NetworkID } acct.privateKey)]]) := by
  simp [ExecuteRemoteSendTransaction, hc, ha, hcl, hf, ht, hn, hs, setField]

/-- C4 witness: the theorem applied at the concrete sample environment. -/
theorem remote_send_transaction_spec_witness :
    ExecuteRemoteSendTransaction sampleRemoteEnv sampleReq sampleHex sampleHash =
      (.ok [("jsonrpc", JsonValue.str "2.0"), ("id", JsonValue.num 1),
            ("result", JsonValue.raw "\"0xabc\""),
            ("hash", JsonValue.str "0x1234")],
       [RPCEffect.callContext 60 "eth_getTransactionCount" ["0xf00d", "latest"],
        RPCEffect.callContext 60 "eth_sendRawTransaction" ["0xdeadbeef"]]) :=
  remote_send_transaction_spec sampleRemoteEnv sampleReq sampleHex sampleHash
    remoteCfg sampleAccount "0xf00d" "0xbeef" 11 "\"0xabc\""
    rfl rfl rfl rfl rfl rfl rfl

/-- C1: the claim fails on the code.  Of the three termination paths of
the initialization goroutine, success and node-start-failure do close the
started channel (channel 0, the one `startNode` handed back to the
caller), but when the underlying node started and the RPC-client
construction then failed, the goroutine returns after publishing
`node.crashed` without closing it — waiters stay blocked, refuting
"closed regardless of success or failure". -/
theorem started_channel_left_open_on_rpc_client_failure :
    ((runStartScenario allOkEnv).1.chans.isClosed 0 = true)
    ∧ ((runStartScenario startFailEnv).1.chans.isClosed 0 = true)
    ∧ ((runStartScenario rpcFailEnv).1.chans.isClosed 0 = false)
    ∧ (runStartScenario rpcFailEnv).1.nodeStarted = some 0
    ∧ signalsOf (runStartScenario rpcFailEnv).2 =
        [SignalEvent.NodeCrashed errRPCClientText] := by decide

/-- C2: the claim fails on the code.  The `NodeCrashed` signal is
published on both fatal paths, and after a node-start failure the
lifecycle does return to Idle (`IsNodeRunning` is false and a new start
is not refused with `NodeExists`); but after an RPC-client-construction
failure the node handle and the (never-closed) started channel remain
set, so `IsNodeRunning` blocks forever instead of returning false and a
subsequent `Start` fails with `NodeExists`. -/
theorem lifecycle_not_idle_after_rpc_client_crash :
    signalsOf (runStartScenario rpcFailEnv).2 =
        [SignalEvent.NodeCrashed errRPCClientText]
    ∧ (startNode (runStartScenario rpcFailEnv).1 sampleConfig (.ok sampleNode)).1 =
        .error .NodeExists
    ∧ IsNodeRunning (runStartScenario rpcFailEnv).1 = none
    ∧ signalsOf (runStartScenario startFailEnv).2 =
        [SignalEvent.NodeCrashed (nodeStartCrashMsg "boom")]
    ∧ IsNodeRunning (runStartScenario startFailEnv).1 = some false
    ∧ (startNode (runStartScenario startFailEnv).1 sampleConfig (.ok sampleNode)).1 ≠
        .error .NodeExists := by decide

/-- C7: counterexample to the claim as stated, at two explicit reachable
states.  First, after a completed stop, `RPCClient` — whose Go signature
returns only `*rpc.Client`, with no error — yields a nil client without
any error instead of failing with `NoRunningNode` (a genuine guarded
accessor, `NodeConfig`, does fail with `NoRunningNode` on the very same
state).  Second, while a start is in progress but before the goroutine
has executed `setNode` (i.e. during `ethNode.Start()`), the guarded
accessors do not block until the started channel closes: `isNodeAvailable`
sees a nil node handle and they return `NoRunningNode` immediately
(`some (.error ..)`, not the blocking `none`), and `IsNodeRunning` is
false. -/
theorem accessors_claim_counterexample :
    (RPCClientAcc stoppedState = none
     ∧ NodeConfigAcc stoppedState = some (.error .NoRunningNode))
    ∧ (midStartState.nodeStarted = some 0
       ∧ midStartState.chans.isClosed 0 = false
       ∧ midStartState.node = none
       ∧ NodeConfigAcc midStartState = some (.error .NoRunningNode)
       ∧ NodeAcc midStartState = some (.error .NoRunningNode)
       ∧ AccountKeyStoreAcc midStartState = some (.error .NoRunningNode)
       ∧ IsNodeRunning midStartState = some false) := by decide

/-- C7 amended: after `Stop` has completed, the guarded accessors
`NodeConfig`, `Node` and `AccountKeyStore` fail with `NoRunningNode`;
`RPCClient`, however, performs no availability check: it returns a nil
client with no error after `Stop` and never blocks.  While a start is in
progress, the guarded accessors block until the started channel has
closed only once the goroutine has set the node handle; in the window
before the node handle is set they fail immediately with `NoRunningNode`
instead of blocking. -/
theorem accessors_after_stop_amended :
    (∀ (m m' : NodeManagerState) (c : Nat) (stopRes : Except String Unit),
       (stopNode m stopRes).1 = .ok (m', c) →
       NodeConfigAcc m' = some (.error .NoRunningNode)
       ∧ NodeAcc m' = some (.error .NoRunningNode)
       ∧ AccountKeyStoreAcc m' = some (.error .NoRunningNode)
       ∧ RPCClientAcc m' = none)
    ∧ (∀ (m : NodeManagerState) (c : Nat) (n : NodeHandle),
       m.nodeStarted = some c → m.node = some n → m.chans.isClosed c = false →
       NodeConfigAcc m = none ∧ NodeAcc m = none ∧ AccountKeyStoreAcc m = none)
    ∧ (∀ (m : NodeManagerState) (c : Nat),
       m.nodeStarted = some c → m.node = none →
       NodeConfigAcc m = some (.error .NoRunningNode)
       ∧ NodeAcc m = some (.error .NoRunningNode)
       ∧ AccountKeyStoreAcc m = some (.error .NoRunningNode)) := by
  refine ⟨?_, ?_, ?_⟩
  · intro m m' c stopRes h
    match stopRes with
    | .error e => simp [stopNode] at h
    | .ok _ =>
      simp only [stopNode, ChanHeap.alloc, Except.ok.injEq, Prod.mk.injEq] at h
      obtain ⟨h1, -⟩ := h
      subst h1
      refine ⟨?_, ?_, ?_, ?_⟩ <;>
        simp [NodeConfigAcc, NodeAcc, AccountKeyStoreAcc, RPCClientAcc,
          isNodeAvailable, reset]
  · intro m c n hs hn hcl
    refine ⟨?_, ?_, ?_⟩ <;>
      simp [NodeConfigAcc, NodeAcc, AccountKeyStoreAcc, isNodeAvailable,
        readNodeStarted, hs, hn, hcl]
  · intro m c hs hn
    refine ⟨?_, ?_, ?_⟩ <;>
      simp [NodeConfigAcc, NodeAcc, AccountKeyStoreAcc, isNodeAvailable, hs, hn]

/-- C7 amended witness: the theorem applied to the concrete stopped
state, to the concrete mid-start state with the node handle set and the
started channel open, and to the concrete mid-start state before the
node handle is set. -/
theorem accessors_after_stop_amended_witness :
    (NodeConfigAcc stoppedState = some (.error .NoRunningNode)
     ∧ NodeAcc stoppedState = some (.error .NoRunningNode)
     ∧ AccountKeyStoreAcc stoppedState = some (.error .NoRunningNode)
     ∧ RPCClientAcc stoppedState = none)
    ∧ (NodeConfigAcc (runStartScenario rpcFailEnv).1 = none
       ∧ NodeAcc (runStartScenario rpcFailEnv).1 = none
       ∧ AccountKeyStoreAcc (runStartScenario rpcFailEnv).1 = none)
    ∧ (NodeConfigAcc midStartState = some (.error .NoRunningNode)
       ∧ NodeAcc midStartState = some (.error .NoRunningNode)
       ∧ AccountKeyStoreAcc midStartState = some (.error .NoRunningNode)) :=
  ⟨accessors_after_stop_amended.1 runningState stoppedState 2 (.ok ()) (by decide),
   accessors_after_stop_amended.2.1 (runStartScenario rpcFailEnv).1 0 sampleNode
     (by decide) (by decide) (by decide),
   accessors_after_stop_amended.2.2 midStartState 0 (by decide) (by decide)⟩

/-- C9: `ResetChainData` on a running node stops the node, and then: if
the chain-data directory `<DataDir>/<Name>/lightchaindata` of the
previous configuration does not exist, it reports failure (no removal,
no signal, no restart); if it exists, it removes exactly that directory,
emits the chain-data-removed signal and restarts via
`MakeNode(prevConfig)` with the previous configuration — in that order. -/
theorem reset_chain_data_spec (m : NodeManagerState) (cfg : NodeConfig)
    (n nh : NodeHandle) (c : Nat)
    (hs : m.nodeStarted = some c) (hcl : m.chans.isClosed c = true)
    (hn : m.node = some n) (hcfg : m.config = some cfg) :
    (ResetChainData m (.ok ()) false true (.ok nh) =
       some (.error (.ChainDataMissing (chainDataDirOf cfg)),
             [.nodeStop, .emit .NodeStopped, .statDir (chainDataDirOf cfg)]))
    ∧ ((ResetChainData m (.ok ()) true true (.ok nh)).map
         (fun r => (exceptIsOk r.1, r.2)) =
       some (true,
             [.nodeStop, .emit .NodeStopped, .statDir (chainDataDirOf cfg),
              .removeDir (chainDataDirOf cfg), .emit .ChainDataRemoved,
              .makeNode cfg])) := by
  constructor
  · simp [ResetChainData, resetChainData, stopNode, isNodeAvailable,
      readNodeStarted, hs, hn, hcl, hcfg]
  · simp [ResetChainData, resetChainData, stopNode, startNode, reset, getNode,
      nodeStartedIsNil, setNodeStarted, isNodeAvailable, readNodeStarted,
      ChanHeap.alloc, ChanHeap.close, exceptIsOk, hs, hn, hcl, hcfg]

/-- C9 witness: the theorem applied to the concrete running manager, for
a missing and for a present chain-data directory. -/
theorem reset_chain_data_spec_witness :
    (ResetChainData runningState (.ok ()) false true (.ok sampleNode) =
       some (.error (.ChainDataMissing "/data/StatusIM/lightchaindata"),
             [.nodeStop, .emit .NodeStopped,
              .statDir "/data/StatusIM/lightchaindata"]))
    ∧ ((ResetChainData runningState (.ok ()) true true (.ok sampleNode)).map
         (fun r => (exceptIsOk r.1, r.2)) =
       some (true,
             [.nodeStop, .emit .NodeStopped,
              .statDir "/data/StatusIM/lightchaindata",
              .removeDir "/data/StatusIM/lightchaindata",
              .emit .ChainDataRemoved, .makeNode sampleConfig])) :=
  reset_chain_data_spec runningState sampleConfig sampleNode sampleNode 0
    rfl rfl rfl rfl

end StatusGo
